import Mathlib

/-!
Shallow embedding of the service-marketplace client hooks:
the favorites manager (`useFavorites`) and the booking transition
executor (`useBookingsActionsV2`).

Remote interactions (the backend-as-a-service query/insert/update/delete
calls) are modelled by explicit parameters carrying the remote outcome,
and by result records that trace which remote mutation calls were issued
and which user-visible toasts were reported.  The ambient authenticated
user (`useAuth`) is an explicit `Option String` argument (`none` = no
authenticated user, `some uid` = user with id `uid`).
-/

/-- One user-visible notification, as passed to the toast sink:
title, description, and whether the `destructive` variant was used. -/
structure Toast where
  title : String
  description : String
  destructive : Bool
deriving Repr, DecidableEq

/-- Outcome of one remote call: success carrying returned data, a returned
error value (the `{ data, error }` channel), or a thrown exception. -/
inductive RemoteResult (α : Type) where
  | ok (data : α)
  | err
  | threw
deriving Repr, DecidableEq

/-! ## Favorites data model (`useFavorites.tsx`) -/

/-- A favorite record, as selected from the `favorites` table. -/
structure Favorite where
  id : String
  customer_id : String
  provider_user_id : String
  created_at : String
deriving Repr, DecidableEq

/-- Result of one `loadFavorites` call: the favorites state after the
call, whether a remote select was issued, and the toasts reported. -/
structure LoadResult where
  favorites : List Favorite
  queryIssued : Bool
  toasts : List Toast
deriving Repr, DecidableEq

/-- Toast reported when the favorites select returns an error. -/
def loadErrorToast : Toast :=
  ⟨"Error", "Failed to load favorites. Please try again.", true⟩

/-- Toast reported when the favorites load throws. -/
def loadUnexpectedToast : Toast :=
  ⟨"Error", "An unexpected error occurred while loading favorites.", true⟩

/-- `loadFavorites`: with no authenticated user it clears the local state
and returns without contacting the remote store; otherwise it issues the
select and either replaces the state with the returned rows or, on a
returned error or a thrown exception, toasts and leaves the state as it
was. -/
def loadFavorites (user : Option String) (favorites : List Favorite)
    (query : RemoteResult (List Favorite)) : LoadResult :=
  match user with
  | none => ⟨[], false, []⟩
  | some _ =>
    match query with
    | .ok data => ⟨data, true, []⟩
    | .err => ⟨favorites, true, [loadErrorToast]⟩
    | .threw => ⟨favorites, true, [loadUnexpectedToast]⟩

/-- Result of one `addToFavorites` call: the boolean return value, the
favorites state after the call, whether a remote insert was issued, and
the toasts reported. -/
structure AddResult where
  success : Bool
  favorites : List Favorite
  insertIssued : Bool
  toasts : List Toast
deriving Repr, DecidableEq

/-- Toast reported when `addToFavorites` is called with no user. -/
def authRequiredToast : Toast :=
  ⟨"Authentication Required", "Please log in to add favorites.", true⟩

/-- Toast reported when the provider is already a favorite. -/
def alreadyFavoriteToast : Toast :=
  ⟨"Already in Favorites", "This provider is already in your favorites.", true⟩

/-- Toast reported when the favorites insert fails or throws. -/
def addErrorToast : Toast :=
  ⟨"Error", "Failed to add to favorites. Please try again.", true⟩

/-- Toast reported when the favorites insert succeeds. -/
def addedToast : Toast :=
  ⟨"Added to Favorites", "Provider has been added to your favorites.", false⟩

/-- `addToFavorites providerUserId`: fails fast (toast, `false`) with no
authenticated user; fails (toast, `false`, no insert) when some local
entry already has this `provider_user_id`; otherwise issues the insert
and on success appends the returned record to the local state. -/
def addToFavorites (user : Option String) (favorites : List Favorite)
    (providerUserId : String) (insertRes : RemoteResult Favorite) : AddResult :=
  match user with
  | none => ⟨false, favorites, false, [authRequiredToast]⟩
  | some _ =>
    if (favorites.find? (fun fav => fav.provider_user_id == providerUserId)).isSome then
      ⟨false, favorites, false, [alreadyFavoriteToast]⟩
    else
      match insertRes with
      | .ok data => ⟨true, favorites ++ [data], true, [addedToast]⟩
      | .err => ⟨false, favorites, true, [addErrorToast]⟩
      | .threw => ⟨false, favorites, true, [addErrorToast]⟩

/-- Result of one `removeFromFavorites` call: the boolean return value,
the favorites state after the call, whether a remote delete was issued,
and the toasts reported. -/
structure RemoveResult where
  success : Bool
  favorites : List Favorite
  deleteIssued : Bool
  toasts : List Toast
deriving Repr, DecidableEq

/-- Toast reported when the favorites delete fails or throws. -/
def removeErrorToast : Toast :=
  ⟨"Error", "Failed to remove from favorites. Please try again.", true⟩

/-- Toast reported when the favorites delete succeeds. -/
def removedToast : Toast :=
  ⟨"Removed from Favorites", "Provider has been removed from your favorites.", false⟩

/-- `removeFromFavorites providerUserId`: returns `false` silently with
no authenticated user; otherwise issues the remote delete and on success
filters every matching entry out of the local state. -/
def removeFromFavorites (user : Option String) (favorites : List Favorite)
    (providerUserId : String) (deleteRes : RemoteResult Unit) : RemoveResult :=
  match user with
  | none => ⟨false, favorites, false, []⟩
  | some _ =>
    match deleteRes with
    | .ok _ =>
      ⟨true, favorites.filter (fun fav => fav.provider_user_id ≠ providerUserId),
        true, [removedToast]⟩
    | .err => ⟨false, favorites, true, [removeErrorToast]⟩
    | .threw => ⟨false, favorites, true, [removeErrorToast]⟩

/-- `isFavorite providerUserId`: pure membership check over the local
favorites state. -/
def isFavorite (favorites : List Favorite) (providerUserId : String) : Bool :=
  favorites.any (fun fav => fav.provider_user_id == providerUserId)

/-! ## Booking data model (`useBookingsActionsV2`) -/

/-- A booking row, as selected from the `bookings` table.  Besides the
fields the transitions read or write, `id`, `customer_id` and
`created_at` stand for the columns the transitions never touch. -/
structure Booking where
  id : String
  customer_id : String
  provider_user_id : String
  status : String
  provider_notes : Option String
  cancellation_reason : Option String
  accepted_at : Option String
  started_at : Option String
  completed_at : Option String
  cancelled_at : Option String
  created_at : String
deriving Repr, DecidableEq

/-- The payload object passed to one `update` call on the `bookings`
table: `none` means the field is absent from the payload.  For
`provider_notes` the written value is itself optional, mirroring the
optional `notes` argument. -/
structure BookingUpdate where
  status : Option String := none
  provider_notes : Option (Option String) := none
  cancellation_reason : Option String := none
  accepted_at : Option String := none
  started_at : Option String := none
  completed_at : Option String := none
  cancelled_at : Option String := none
deriving Repr, DecidableEq

/-- The distinct failures a booking mutation can throw, by the message it
carries: `notAuthenticated` = "User not authenticated", `fetchFailed` =
"Failed to fetch booking details", `notAuthorized` = "You are not
authorized to ... this booking", `invalidTransition` = "This booking
cannot be ...", `updateFailed` = the remote update error rethrown. -/
inductive BookingError where
  | notAuthenticated
  | fetchFailed
  | notAuthorized
  | invalidTransition
  | updateFailed
deriving Repr, DecidableEq

/-- Result of one booking mutation: the thrown error or the returned
`{ bookingId, status }` pair, together with the list of `update` calls
issued to the remote store. -/
structure MutationResult where
  outcome : Except BookingError (String × String)
  updates : List BookingUpdate
deriving Repr

/-- Writes an optional new value over an optional column. -/
def overwrite (new old : Option String) : Option String :=
  match new with
  | some v => some v
  | none => old

/-- Applies an update payload to a booking row, field by field: a field
absent from the payload keeps its prior value. -/
def applyBookingUpdate (b : Booking) (u : BookingUpdate) : Booking :=
  { b with
    status := u.status.getD b.status
    provider_notes := u.provider_notes.getD b.provider_notes
    cancellation_reason := overwrite u.cancellation_reason b.cancellation_reason
    accepted_at := overwrite u.accepted_at b.accepted_at
    started_at := overwrite u.started_at b.started_at
    completed_at := overwrite u.completed_at b.completed_at
    cancelled_at := overwrite u.cancelled_at b.cancelled_at }

/-- The payload `acceptBooking` passes to `update`. -/
def acceptUpdate (notes : Option String) (now : String) : BookingUpdate :=
  { status := some "accepted", provider_notes := some notes, accepted_at := some now }

/-- The payload `markInProgress` passes to `update`. -/
def startUpdate (notes : Option String) (now : String) : BookingUpdate :=
  { status := some "in_progress", provider_notes := some notes, started_at := some now }

/-- The payload `completeBooking` passes to `update`. -/
def completeUpdate (notes : Option String) (now : String) : BookingUpdate :=
  { status := some "completed", provider_notes := some notes, completed_at := some now }

/-- The payload `cancelBooking` passes to `update`. -/
def cancelUpdate (reason : String) (now : String) : BookingUpdate :=
  { status := some "cancelled", cancellation_reason := some reason, cancelled_at := some now }

/-- `acceptBooking` mutation: authentication check, re-fetch by id
(`fetched`, `none` = fetch error), authorization against
`provider_user_id`, precondition `status = "pending"`, then the update
(`updateOk` = whether the remote update call succeeds). -/
def acceptBooking (user : Option String) (bookingId : String)
    (fetched : Option Booking) (notes : Option String)
    (now : String) (updateOk : Bool) : MutationResult :=
  match user with
  | none => ⟨.error .notAuthenticated, []⟩
  | some uid =>
    match fetched with
    | none => ⟨.error .fetchFailed, []⟩
    | some booking =>
      if booking.provider_user_id ≠ uid then ⟨.error .notAuthorized, []⟩
      else if booking.status ≠ "pending" then ⟨.error .invalidTransition, []⟩
      else if updateOk then ⟨.ok (bookingId, "accepted"), [acceptUpdate notes now]⟩
      else ⟨.error .updateFailed, [acceptUpdate notes now]⟩

/-- `markInProgress` mutation: same pattern with precondition
`status = "accepted"`. -/
def markInProgress (user : Option String) (bookingId : String)
    (fetched : Option Booking) (notes : Option String)
    (now : String) (updateOk : Bool) : MutationResult :=
  match user with
  | none => ⟨.error .notAuthenticated, []⟩
  | some uid =>
    match fetched with
    | none => ⟨.error .fetchFailed, []⟩
    | some booking =>
      if booking.provider_user_id ≠ uid then ⟨.error .notAuthorized, []⟩
      else if booking.status ≠ "accepted" then ⟨.error .invalidTransition, []⟩
      else if updateOk then ⟨.ok (bookingId, "in_progress"), [startUpdate notes now]⟩
      else ⟨.error .updateFailed, [startUpdate notes now]⟩

/-- `completeBooking` mutation: same pattern with precondition
`status = "in_progress"`. -/
def completeBooking (user : Option String) (bookingId : String)
    (fetched : Option Booking) (notes : Option String)
    (now : String) (updateOk : Bool) : MutationResult :=
  match user with
  | none => ⟨.error .notAuthenticated, []⟩
  | some uid =>
    match fetched with
    | none => ⟨.error .fetchFailed, []⟩
    | some booking =>
      if booking.provider_user_id ≠ uid then ⟨.error .notAuthorized, []⟩
      else if booking.status ≠ "in_progress" then ⟨.error .invalidTransition, []⟩
      else if updateOk then ⟨.ok (bookingId, "completed"), [completeUpdate notes now]⟩
      else ⟨.error .updateFailed, [completeUpdate notes now]⟩

/-- `cancelBooking` mutation: same pattern with precondition
`status ∉ ["cancelled", "completed"]` and a mandatory `reason`. -/
def cancelBooking (user : Option String) (bookingId : String)
    (fetched : Option Booking) (reason : String)
    (now : String) (updateOk : Bool) : MutationResult :=
  match user with
  | none => ⟨.error .notAuthenticated, []⟩
  | some uid =>
    match fetched with
    | none => ⟨.error .fetchFailed, []⟩
    | some booking =>
      if booking.provider_user_id ≠ uid then ⟨.error .notAuthorized, []⟩
      else if booking.status ∈ ["cancelled", "completed"] then
        ⟨.error .invalidTransition, []⟩
      else if updateOk then ⟨.ok (bookingId, "cancelled"), [cancelUpdate reason now]⟩
      else ⟨.error .updateFailed, [cancelUpdate reason now]⟩

/-! ## Sample records used to instantiate the theorems -/

/-- A pending booking owned by provider user `u1` (the §8 scenario). -/
def exampleBooking : Booking :=
  ⟨"b1", "c1", "u1", "pending", none, none, none, none, none, none, "t0"⟩

/-- A cancelled booking owned by provider user `u1`. -/
def exampleCancelledBooking : Booking :=
  ⟨"b2", "c1", "u1", "cancelled", none, none, none, none, none, some "t0", "t0"⟩

/-- A completed booking owned by provider user `u2`. -/
def exampleOtherProviderBooking : Booking :=
  ⟨"b3", "c1", "u2", "completed", none, none, none, none, some "t0", none, "t0"⟩

/-- A favorite of customer `u1` for provider `p1`. -/
def exampleFavorite : Favorite := ⟨"f1", "u1", "p1", "t0"⟩

/-- A second favorite of customer `u1` for the same provider `p1`. -/
def exampleFavoriteDup : Favorite := ⟨"f2", "u1", "p1", "t1"⟩

/-- A favorite of customer `u1` for a different provider `p2`. -/
def exampleFavoriteOther : Favorite := ⟨"f3", "u1", "p2", "t2"⟩

/-! ## Theorems about the booking transitions -/

/-- Claim C1: with an authenticated caller and the booking freshly
fetched, `acceptBooking` succeeds exactly when the booking's status is
`"pending"` and its `provider_user_id` equals the caller's id; in that
case the update it issues sets status `"accepted"`, sets `accepted_at`,
and sets `provider_notes` to the supplied notes; in every other case it
throws and issues no update. -/
theorem acceptBooking_correct (uid bookingId now : String) (b : Booking)
    (notes : Option String) :
    ((∃ v, (acceptBooking (some uid) bookingId (some b) notes now true).outcome =
        Except.ok v) ↔
      b.status = "pending" ∧ b.provider_user_id = uid) ∧
    (b.status = "pending" ∧ b.provider_user_id = uid →
      (acceptBooking (some uid) bookingId (some b) notes now true).updates =
          [acceptUpdate notes now] ∧
      (applyBookingUpdate b (acceptUpdate notes now)).status = "accepted" ∧
      (applyBookingUpdate b (acceptUpdate notes now)).accepted_at = some now ∧
      (applyBookingUpdate b (acceptUpdate notes now)).provider_notes = notes) ∧
    (¬ (b.status = "pending" ∧ b.provider_user_id = uid) →
      (∃ e, (acceptBooking (some uid) bookingId (some b) notes now true).outcome =
          Except.error e) ∧
      (acceptBooking (some uid) bookingId (some b) notes now true).updates = []) := by
  by_cases hp : b.provider_user_id = uid <;> by_cases hs : b.status = "pending" <;>
    simp [acceptBooking, applyBookingUpdate, acceptUpdate, overwrite, hp, hs]

/-- Instance of `acceptBooking_correct` at the §8 scenario: booking
`b1` owned by `u1` with status `pending`, caller `u1`, notes `ok`. -/
theorem acceptBooking_correct_witness :
    (acceptBooking (some "u1") "b1" (some exampleBooking) (some "ok") "t1" true).updates =
      [acceptUpdate (some "ok") "t1"] ∧
    (applyBookingUpdate exampleBooking (acceptUpdate (some "ok") "t1")).status =
      "accepted" ∧
    (applyBookingUpdate exampleBooking (acceptUpdate (some "ok") "t1")).accepted_at =
      some "t1" ∧
    (applyBookingUpdate exampleBooking (acceptUpdate (some "ok") "t1")).provider_notes =
      some "ok" :=
  (acceptBooking_correct "u1" "b1" "t1" exampleBooking (some "ok")).2.1 ⟨rfl, rfl⟩

/-- Claim C2: invoked by the booking's provider-user, `cancelBooking`
succeeds from every status other than `"cancelled"` and `"completed"`,
issuing an update that sets status `"cancelled"`, `cancellation_reason`
and `cancelled_at`; from `"cancelled"` or `"completed"` it throws the
invalid-transition error and issues no update. -/
theorem cancelBooking_correct (uid bookingId now reason : String) (b : Booking)
    (hown : b.provider_user_id = uid) :
    (b.status ≠ "cancelled" ∧ b.status ≠ "completed" →
      (cancelBooking (some uid) bookingId (some b) reason now true).outcome =
          Except.ok (bookingId, "cancelled") ∧
      (cancelBooking (some uid) bookingId (some b) reason now true).updates =
          [cancelUpdate reason now] ∧
      (applyBookingUpdate b (cancelUpdate reason now)).status = "cancelled" ∧
      (applyBookingUpdate b (cancelUpdate reason now)).cancellation_reason =
          some reason ∧
      (applyBookingUpdate b (cancelUpdate reason now)).cancelled_at = some now) ∧
    (b.status = "cancelled" ∨ b.status = "completed" →
      (cancelBooking (some uid) bookingId (some b) reason now true).outcome =
          Except.error BookingError.invalidTransition ∧
      (cancelBooking (some uid) bookingId (some b) reason now true).updates = []) := by
  by_cases h1 : b.status = "cancelled" <;> by_cases h2 : b.status = "completed" <;>
    simp [cancelBooking, applyBookingUpdate, cancelUpdate, overwrite, hown, h1, h2]

/-- Instance of `cancelBooking_correct`: the pending booking `b1` owned
by `u1` is cancelled by `u1`; and the completed booking `b3` is refused
(§8 scenario, via its owner `u2`). -/
theorem cancelBooking_correct_witness :
    ((cancelBooking (some "u1") "b1" (some exampleBooking) "why" "t1" true).outcome =
      Except.ok ("b1", "cancelled")) ∧
    ((cancelBooking (some "u2") "b3" (some exampleOtherProviderBooking) "why" "t1"
        true).outcome = Except.error BookingError.invalidTransition) :=
  ⟨((cancelBooking_correct "u1" "b1" "t1" "why" exampleBooking rfl).1
      (by simp [exampleBooking])).1,
   ((cancelBooking_correct "u2" "b3" "t1" "why" exampleOtherProviderBooking rfl).2
      (Or.inr rfl)).1⟩

/-- Claim C3: every transition checks authentication, then the fetch,
then authorization, then the status precondition, and throws the first
failing check's error: no caller gives the authentication error; a
failed fetch gives the fetch error; a booking owned by another provider
gives the authorization error whatever its status; and an owned booking
with a bad status gives the invalid-transition error.  In every such
case no update is issued. -/
theorem transitions_check_order (uid bookingId now reason : String)
    (notes : Option String) (fetched : Option Booking) (ok : Bool)
    (b b2 : Booking) (hprov : b.provider_user_id ≠ uid)
    (hown : b2.provider_user_id = uid)
    (hterm : b2.status = "cancelled" ∨ b2.status = "completed") :
    ((acceptBooking none bookingId fetched notes now ok).outcome =
        Except.error BookingError.notAuthenticated ∧
     (markInProgress none bookingId fetched notes now ok).outcome =
        Except.error BookingError.notAuthenticated ∧
     (completeBooking none bookingId fetched notes now ok).outcome =
        Except.error BookingError.notAuthenticated ∧
     (cancelBooking none bookingId fetched reason now ok).outcome =
        Except.error BookingError.notAuthenticated) ∧
    ((acceptBooking (some uid) bookingId none notes now ok).outcome =
        Except.error BookingError.fetchFailed ∧
     (markInProgress (some uid) bookingId none notes now ok).outcome =
        Except.error BookingError.fetchFailed ∧
     (completeBooking (some uid) bookingId none notes now ok).outcome =
        Except.error BookingError.fetchFailed ∧
     (cancelBooking (some uid) bookingId none reason now ok).outcome =
        Except.error BookingError.fetchFailed) ∧
    ((acceptBooking (some uid) bookingId (some b) notes now ok).outcome =
        Except.error BookingError.notAuthorized ∧
     (markInProgress (some uid) bookingId (some b) notes now ok).outcome =
        Except.error BookingError.notAuthorized ∧
     (completeBooking (some uid) bookingId (some b) notes now ok).outcome =
        Except.error BookingError.notAuthorized ∧
     (cancelBooking (some uid) bookingId (some b) reason now ok).outcome =
        Except.error BookingError.notAuthorized ∧
     (acceptBooking (some uid) bookingId (some b) notes now ok).updates = []) ∧
    ((acceptBooking (some uid) bookingId (some b2) notes now ok).outcome =
        Except.error BookingError.invalidTransition ∧
     (markInProgress (some uid) bookingId (some b2) notes now ok).outcome =
        Except.error BookingError.invalidTransition ∧
     (completeBooking (some uid) bookingId (some b2) notes now ok).outcome =
        Except.error BookingError.invalidTransition ∧
     (cancelBooking (some uid) bookingId (some b2) reason now ok).outcome =
        Except.error BookingError.invalidTransition ∧
     (acceptBooking (some uid) bookingId (some b2) notes now ok).updates = []) := by
  rcases hterm with h | h <;>
    simp [acceptBooking, markInProgress, completeBooking, cancelBooking,
      hprov, hown, h]

/-- Instance of `transitions_check_order`: caller `u1`, a completed
booking owned by `u2` (wrong owner and wrong status, which yields the
authorization error), and a cancelled booking owned by `u1`. -/
theorem transitions_check_order_witness :
    (acceptBooking (some "u1") "b3" (some exampleOtherProviderBooking) (some "ok")
        "t1" true).outcome = Except.error BookingError.notAuthorized ∧
    (acceptBooking (some "u1") "b2" (some exampleCancelledBooking) (some "ok")
        "t1" true).outcome = Except.error BookingError.invalidTransition :=
  have h := transitions_check_order "u1" "b3" "t1" "why" (some "ok")
      (some exampleBooking) true exampleOtherProviderBooking exampleCancelledBooking
      (by simp [exampleOtherProviderBooking]) rfl (Or.inl rfl)
  ⟨h.2.2.1.1, h.2.2.2.1⟩

/-- Claim C4: a successful transition issues exactly its §4.2 payload
(accept: status, notes, accepted_at; start: status, notes, started_at;
complete: status, notes, completed_at; cancel: status, reason,
cancelled_at), and applying that payload to the booking changes only
those fields, leaving every other field unchanged. -/
theorem transitions_frame (uid bookingId now reason : String)
    (notes : Option String) (b : Booking) :
    ((∃ v, (acceptBooking (some uid) bookingId (some b) notes now true).outcome =
        Except.ok v) →
      (acceptBooking (some uid) bookingId (some b) notes now true).updates =
        [acceptUpdate notes now]) ∧
    ((∃ v, (markInProgress (some uid) bookingId (some b) notes now true).outcome =
        Except.ok v) →
      (markInProgress (some uid) bookingId (some b) notes now true).updates =
        [startUpdate notes now]) ∧
    ((∃ v, (completeBooking (some uid) bookingId (some b) notes now true).outcome =
        Except.ok v) →
      (completeBooking (some uid) bookingId (some b) notes now true).updates =
        [completeUpdate notes now]) ∧
    ((∃ v, (cancelBooking (some uid) bookingId (some b) reason now true).outcome =
        Except.ok v) →
      (cancelBooking (some uid) bookingId (some b) reason now true).updates =
        [cancelUpdate reason now]) ∧
    (applyBookingUpdate b (acceptUpdate notes now) =
      { b with status := "accepted", provider_notes := notes,
               accepted_at := some now }) ∧
    (applyBookingUpdate b (startUpdate notes now) =
      { b with status := "in_progress", provider_notes := notes,
               started_at := some now }) ∧
    (applyBookingUpdate b (completeUpdate notes now) =
      { b with status := "completed", provider_notes := notes,
               completed_at := some now }) ∧
    (applyBookingUpdate b (cancelUpdate reason now) =
      { b with status := "cancelled", cancellation_reason := some reason,
               cancelled_at := some now }) := by
  refine ⟨?_, ?_, ?_, ?_, ?_, ?_, ?_, ?_⟩
  · intro hv
    by_cases hp : b.provider_user_id = uid <;>
      by_cases hs : b.status = "pending" <;>
      simp [acceptBooking, hp, hs] at hv ⊢
  · intro hv
    by_cases hp : b.provider_user_id = uid <;>
      by_cases hs : b.status = "accepted" <;>
      simp [markInProgress, hp, hs] at hv ⊢
  · intro hv
    by_cases hp : b.provider_user_id = uid <;>
      by_cases hs : b.status = "in_progress" <;>
      simp [completeBooking, hp, hs] at hv ⊢
  · intro hv
    by_cases hp : b.provider_user_id = uid <;>
      by_cases h1 : b.status = "cancelled" <;>
      by_cases h2 : b.status = "completed" <;>
      simp [cancelBooking, hp, h1, h2] at hv ⊢
  · simp [applyBookingUpdate, acceptUpdate, overwrite]
  · simp [applyBookingUpdate, startUpdate, overwrite]
  · simp [applyBookingUpdate, completeUpdate, overwrite]
  · simp [applyBookingUpdate, cancelUpdate, overwrite]

/-- Instance of `transitions_frame` at the §8 scenario booking: the
accept payload leaves the untouched fields of `b1` as they were. -/
theorem transitions_frame_witness :
    applyBookingUpdate exampleBooking (acceptUpdate (some "ok") "t1") =
      { exampleBooking with status := "accepted", provider_notes := some "ok",
                            accepted_at := some "t1" } :=
  (transitions_frame "u1" "b1" "t1" "why" (some "ok") exampleBooking).2.2.2.2.1

/-! ## Theorems about the favorites manager -/

/-- Claim C5: with an authenticated user, adding a provider that some
local entry already references returns `false`, issues no remote
insert, and leaves the local favorites state unchanged. -/
theorem addToFavorites_duplicate (uid p : String) (favs : List Favorite)
    (insertRes : RemoteResult Favorite)
    (hdup : ∃ f ∈ favs, f.provider_user_id = p) :
    (addToFavorites (some uid) favs p insertRes).success = false ∧
    (addToFavorites (some uid) favs p insertRes).insertIssued = false ∧
    (addToFavorites (some uid) favs p insertRes).favorites = favs := by
  have hfind : (favs.find? (fun fav => fav.provider_user_id == p)).isSome := by
    rcases hdup with ⟨f, hf, hfp⟩
    exact List.find?_isSome.mpr ⟨f, hf, by simp [hfp]⟩
  simp [addToFavorites, hfind]

/-- Instance of `addToFavorites_duplicate`: provider `p1` is already a
favorite, so adding it again fails without touching the state. -/
theorem addToFavorites_duplicate_witness :
    (addToFavorites (some "u1") [exampleFavorite] "p1" RemoteResult.threw).success =
      false ∧
    (addToFavorites (some "u1") [exampleFavorite] "p1" RemoteResult.threw).favorites =
      [exampleFavorite] :=
  have h := addToFavorites_duplicate "u1" "p1" [exampleFavorite] RemoteResult.threw
    ⟨exampleFavorite, by simp, rfl⟩
  ⟨h.1, h.2.2⟩

/-- Claim C6: when `addToFavorites p` returns `true` and the inserted
record carries `provider_user_id = p`, `isFavorite p` holds on the new
state; when `removeFromFavorites p` returns `true`, `isFavorite p`
fails on the new state. -/
theorem isFavorite_after_add_remove (uid p : String) (favs : List Favorite)
    (data : Favorite) (hdata : data.provider_user_id = p) :
    ((addToFavorites (some uid) favs p (RemoteResult.ok data)).success = true →
      isFavorite (addToFavorites (some uid) favs p (RemoteResult.ok data)).favorites
        p = true) ∧
    (∀ (favs2 : List Favorite) (deleteRes : RemoteResult Unit),
      (removeFromFavorites (some uid) favs2 p deleteRes).success = true →
      isFavorite (removeFromFavorites (some uid) favs2 p deleteRes).favorites
        p = false) := by
  constructor
  · intro hs
    by_cases hfind : (favs.find? (fun fav => fav.provider_user_id == p)).isSome
    · simp [addToFavorites, hfind] at hs
    · simp [addToFavorites, hfind, isFavorite, List.any_eq_true]
      exact Or.inr hdata
  · intro favs2 deleteRes hs
    cases deleteRes with
    | ok u =>
      simp [removeFromFavorites, isFavorite, List.any_eq_true, List.mem_filter]
    | err => simp [removeFromFavorites] at hs
    | threw => simp [removeFromFavorites] at hs

/-- Instance of `isFavorite_after_add_remove`: adding provider `p1` to
an empty state makes it a favorite; removing it afterwards does not
leave it a favorite. -/
theorem isFavorite_after_add_remove_witness :
    isFavorite (addToFavorites (some "u1") [] "p1"
      (RemoteResult.ok exampleFavorite)).favorites "p1" = true ∧
    isFavorite (removeFromFavorites (some "u1") [exampleFavorite] "p1"
      (RemoteResult.ok ())).favorites "p1" = false :=
  have h := isFavorite_after_add_remove "u1" "p1" [] exampleFavorite rfl
  ⟨h.1 rfl, h.2 [exampleFavorite] (RemoteResult.ok ()) rfl⟩

/-- Claim C7: with no authenticated user, `loadFavorites` clears the
state and issues no remote query; with a user, a returned error or a
thrown exception each report an error toast and leave the prior state
unchanged. -/
theorem loadFavorites_correct (uid : String) (favs : List Favorite)
    (query : RemoteResult (List Favorite)) :
    ((loadFavorites none favs query).favorites = [] ∧
     (loadFavorites none favs query).queryIssued = false ∧
     (loadFavorites none favs query).toasts = []) ∧
    ((loadFavorites (some uid) favs RemoteResult.err).favorites = favs ∧
     (loadFavorites (some uid) favs RemoteResult.err).toasts = [loadErrorToast]) ∧
    ((loadFavorites (some uid) favs RemoteResult.threw).favorites = favs ∧
     (loadFavorites (some uid) favs RemoteResult.threw).toasts =
       [loadUnexpectedToast]) := by
  simp [loadFavorites]

/-- Instance of `loadFavorites_correct`: a signed-out load clears the
state without a query; a failed signed-in load keeps the state. -/
theorem loadFavorites_correct_witness :
    (loadFavorites none [exampleFavorite] RemoteResult.err).favorites = [] ∧
    (loadFavorites (some "u1") [exampleFavorite] RemoteResult.err).favorites =
      [exampleFavorite] :=
  have h := loadFavorites_correct "u1" [exampleFavorite] RemoteResult.err
  ⟨h.1.1, h.2.1.1⟩

/-- Claim C8 counterexample: `removeFromFavorites` invoked with no
authenticated user fails (returns `false`) yet reports no user-visible
notification, so not every failing favorites operation surfaces one. -/
theorem removeFromFavorites_silent_failure :
    (removeFromFavorites none [] "p1" (RemoteResult.ok ())).success = false ∧
    (removeFromFavorites none [] "p1" (RemoteResult.ok ())).toasts = [] :=
  ⟨rfl, rfl⟩

/-- Claim C8 (amended): every failing `addToFavorites` call reports a
notification and returns `false`; every failing `removeFromFavorites`
call with an authenticated user reports a notification and returns
`false`; `removeFromFavorites` with no authenticated user returns
`false` with no notification; and a failing signed-in `loadFavorites`
reports a notification.  None propagate the error. -/
theorem favorites_failures_surface (user : Option String) (uid p : String)
    (favs : List Favorite) (insertRes : RemoteResult Favorite)
    (deleteRes : RemoteResult Unit) :
    ((addToFavorites user favs p insertRes).success = false →
      (addToFavorites user favs p insertRes).toasts ≠ []) ∧
    ((removeFromFavorites (some uid) favs p deleteRes).success = false →
      (removeFromFavorites (some uid) favs p deleteRes).toasts ≠ []) ∧
    ((removeFromFavorites none favs p deleteRes).success = false ∧
     (removeFromFavorites none favs p deleteRes).toasts = []) ∧
    ((loadFavorites (some uid) favs RemoteResult.err).toasts ≠ [] ∧
     (loadFavorites (some uid) favs RemoteResult.threw).toasts ≠ []) := by
  refine ⟨?_, ?_, ⟨rfl, rfl⟩, by simp [loadFavorites]⟩
  · intro hs
    cases user with
    | none => simp [addToFavorites]
    | some u =>
      by_cases hfind : (favs.find? (fun fav => fav.provider_user_id == p)).isSome
      · simp [addToFavorites, hfind]
      · cases insertRes with
        | ok data => simp [addToFavorites, hfind] at hs
        | err => simp [addToFavorites, hfind]
        | threw => simp [addToFavorites, hfind]
  · intro hs
    cases deleteRes with
    | ok u => simp [removeFromFavorites] at hs
    | err => simp [removeFromFavorites]
    | threw => simp [removeFromFavorites]

/-- Instance of `favorites_failures_surface`: a failed signed-in insert
reports a toast, and the signed-out removal reports none. -/
theorem favorites_failures_surface_witness :
    (addToFavorites (some "u1") [] "p1" RemoteResult.err).toasts ≠ [] ∧
    (removeFromFavorites none [] "p1" RemoteResult.err).toasts = [] :=
  have h := favorites_failures_surface (some "u1") "u1" "p1" [] RemoteResult.err
    RemoteResult.err
  ⟨h.1 rfl, h.2.2.1.2⟩

/-- Claim C9: a successful removal of provider `p` drops every local
entry whose `provider_user_id` is `p` and keeps every other entry,
duplicates included (their multiplicities are preserved). -/
theorem removeFromFavorites_removes_all (uid p : String) (favs : List Favorite)
    (deleteRes : RemoteResult Unit)
    (hs : (removeFromFavorites (some uid) favs p deleteRes).success = true) :
    (∀ f : Favorite,
      f ∈ (removeFromFavorites (some uid) favs p deleteRes).favorites ↔
        f ∈ favs ∧ f.provider_user_id ≠ p) ∧
    (∀ f : Favorite, f.provider_user_id ≠ p →
      ((removeFromFavorites (some uid) favs p deleteRes).favorites).count f =
        favs.count f) := by
  cases deleteRes with
  | ok u =>
    constructor
    · intro f
      simp [removeFromFavorites, List.mem_filter]
    · intro f hf
      simp only [removeFromFavorites]
      exact List.count_filter (by simp [hf])
  | err => simp [removeFromFavorites] at hs
  | threw => simp [removeFromFavorites] at hs

/-- Instance of `removeFromFavorites_removes_all`: removing `p1` from a
state holding two `p1` entries and one `p2` entry keeps the `p2` entry
and drops both `p1` entries. -/
theorem removeFromFavorites_removes_all_witness :
    exampleFavoriteOther ∈ (removeFromFavorites (some "u1")
      [exampleFavorite, exampleFavoriteDup, exampleFavoriteOther] "p1"
      (RemoteResult.ok ())).favorites ∧
    exampleFavorite ∉ (removeFromFavorites (some "u1")
      [exampleFavorite, exampleFavoriteDup, exampleFavoriteOther] "p1"
      (RemoteResult.ok ())).favorites ∧
    exampleFavoriteDup ∉ (removeFromFavorites (some "u1")
      [exampleFavorite, exampleFavoriteDup, exampleFavoriteOther] "p1"
      (RemoteResult.ok ())).favorites :=
  have h := removeFromFavorites_removes_all "u1" "p1"
    [exampleFavorite, exampleFavoriteDup, exampleFavoriteOther]
    (RemoteResult.ok ()) rfl
  ⟨(h.1 exampleFavoriteOther).mpr ⟨by simp, by simp [exampleFavoriteOther]⟩,
   fun hmem => ((h.1 exampleFavorite).mp hmem).2 rfl,
   fun hmem => ((h.1 exampleFavoriteDup).mp hmem).2 rfl⟩

/-- Claim C10: whenever `addToFavorites` returns `false` — no user,
duplicate provider, remote insert error, or thrown exception — the
local favorites state after the call equals the state before it. -/
theorem addToFavorites_atomic_on_failure (user : Option String) (p : String)
    (favs : List Favorite) (insertRes : RemoteResult Favorite)
    (h : (addToFavorites user favs p insertRes).success = false) :
    (addToFavorites user favs p insertRes).favorites = favs := by
  cases user with
  | none => rfl
  | some uid =>
    by_cases hfind : (favs.find? (fun fav => fav.provider_user_id == p)).isSome
    · simp [addToFavorites, hfind]
    · cases insertRes with
      | ok data => simp [addToFavorites, hfind] at h
      | err => simp [addToFavorites, hfind]
      | threw => simp [addToFavorites, hfind]

/-- Instance of `addToFavorites_atomic_on_failure`: a signed-out add
attempt leaves the single-entry state exactly as it was. -/
theorem addToFavorites_atomic_on_failure_witness :
    (addToFavorites none [exampleFavorite] "p9" RemoteResult.threw).favorites =
      [exampleFavorite] :=
  addToFavorites_atomic_on_failure none "p9" [exampleFavorite] RemoteResult.threw rfl
